import Mathlib

/-!
Verification of the zabbix-tagger batch-update utility (src/main.py).

The program reads CSV rows, resolves each row's group name to a group id
via `hostgroup.get`, lists the hosts of that group via `host.get`, merges
five managed tags built from the row with each host's existing tags, and
writes the merged list back via `host.update`.

The embedding below models the pure tag-merge computation directly and the
row-driven loop of `main` as a trace-producing function over an environment
that supplies the remote responses.  Python exceptions are modelled as
`Except` values; a `requests` failure (`RequestException`) and a `KeyError`
on a missing dictionary key are the two error shapes the loop can see.
-/

namespace ZabbixTagger

/-- A tag entry `{"tag": ..., "value": ...}` as sent and received by the API. -/
structure Tag where
  tag : String
  value : String
deriving DecidableEq, Repr

/-- One CSV input row (semicolon-separated columns read by `main`). -/
structure Row where
  groupname : String
  site_country : String
  site_name : String
  site_id : String
  park_id : String
  technology : String
deriving DecidableEq, Repr

/-- `update_tag_names` from `main` (src/main.py line 143): the managed keys. -/
def update_tag_names : List String :=
  ["COUNTRY", "SITE_NAME", "SITE_ID", "PARKID", "TECHNOLOGY"]

/-- `new_tags` built from the row (src/main.py lines 146-152). -/
def new_tags (row : Row) : List Tag :=
  [⟨"COUNTRY", row.site_country⟩,
   ⟨"SITE_NAME", row.site_name⟩,
   ⟨"SITE_ID", row.site_id⟩,
   ⟨"PARKID", row.park_id⟩,
   ⟨"TECHNOLOGY", row.technology⟩]

/-- `existing_tags` (src/main.py lines 157-158): the host's tags whose key is
not one of the managed keys, in their original order. -/
def existing_tags (tags : List Tag) : List Tag :=
  tags.filter (fun t => !(update_tag_names.contains t.tag))

/-- `final_tags` (src/main.py line 161): preserved non-managed tags followed
by the five freshly built managed tags. -/
def final_tags (tags : List Tag) (row : Row) : List Tag :=
  existing_tags tags ++ new_tags row

/-- Filtering out managed keys removes every tag of `new_tags`. -/
lemma existing_tags_new_tags (row : Row) : existing_tags (new_tags row) = [] := by
  simp [existing_tags, new_tags, update_tag_names, List.filter]

/-- `existing_tags` is idempotent: filtering a second time changes nothing. -/
lemma existing_tags_idem (tags : List Tag) :
    existing_tags (existing_tags tags) = existing_tags tags := by
  simp [existing_tags, List.filter_filter]

/-- `existing_tags` distributes over append. -/
lemma existing_tags_append (xs ys : List Tag) :
    existing_tags (xs ++ ys) = existing_tags xs ++ existing_tags ys := by
  simp [existing_tags, List.filter_append]

/-! ## Remote API model

Each remote call either raises a `requests.exceptions.RequestException`
(a transport/HTTP failure, since `raise_for_status` turns non-2xx status
into an exception) or yields a parsed JSON body.  A 200 body is modelled
with an optional `result` field: `none` models a body with no `result`
key, which `.get("result", [])` defaults to the empty list. -/

/-- A network/HTTP failure from `requests` (`RequestException`). -/
inductive TransportError where
  | mk
deriving DecidableEq, Repr

/-- A parsed JSON-RPC response body; `result = none` models a 200 body
that carries no `result` key. -/
structure JsonRpcResponse (α : Type) where
  result : Option α
deriving DecidableEq, Repr

/-- One element of the `hostgroup.get` result list. -/
structure Group where
  groupid : String
deriving DecidableEq, Repr

/-- One element of the `host.get` result list.  `hostid = none` models a
record dictionary with no `"hostid"` key; `tags = none` models a record
with no `"tags"` key. -/
structure HostRecord where
  hostid : Option String
  tags : Option (List Tag)
deriving DecidableEq, Repr

/-- The Python exceptions the row loop can observe. -/
inductive PyError where
  | requestException
  | keyError (key : String)
deriving DecidableEq, Repr

/-- `DataProcessor.get_group` (src/main.py lines 22-49) applied to the
outcome of the HTTP call: re-raises a transport failure, otherwise reads
`result` (defaulting to `[]`), returns the first group's id when the list
is non-empty and `None` when it is empty. -/
def get_group (resp : Except TransportError (JsonRpcResponse (List Group))) :
    Except PyError (Option String) :=
  match resp with
  | .error _ => .error .requestException
  | .ok r =>
    match r.result.getD [] with
    | [] => .ok none
    | g :: _ => .ok (some g.groupid)

/-- `DataProcessor.get_hosts` (src/main.py lines 51-74): re-raises a
transport failure, otherwise returns the whole parsed JSON body. -/
def get_hosts (resp : Except TransportError (JsonRpcResponse (List HostRecord))) :
    Except PyError (JsonRpcResponse (List HostRecord)) :=
  match resp with
  | .error _ => .error .requestException
  | .ok r => .ok r

/-- `DataProcessor.update_record` (src/main.py lines 76-98): re-raises a
transport failure, otherwise succeeds. -/
def update_record (resp : Except TransportError Unit) : Except PyError Unit :=
  match resp with
  | .error _ => .error .requestException
  | .ok _ => .ok ()

/-! ## The row-driven reconciler loop of `main`

`main` (src/main.py lines 100-170) is modelled as a trace-producing
function.  The environment fixes the configuration, the CSV rows and the
remote system's response to each request. -/

/-- The three configuration values read from `config.ini`. -/
structure Config where
  api_endpoint : String
  auth_token : String
  csv_file_path : String
deriving DecidableEq, Repr

/-- Observable events of a run: the three kinds of API call plus the log
lines the claims talk about. -/
inductive Event where
  | callGroupGet (name : String)
  | callHostGet (groupid : String)
  | callHostUpdate (hostid : String) (tags : List Tag)
  | logWarningNoGroup (name : String)
  | logInfoUpdated (hostid : String)
  | logErrorRow (e : PyError)
deriving DecidableEq, Repr

/-- The run environment: `config = none` models a configuration-load
exception, `csv = none` models a CSV-load exception, and the three
response functions model the remote system (deterministic per request,
which suffices for the per-row properties claimed). -/
structure Env where
  config : Option Config
  csv : Option (List Row)
  groupResp : String → Except TransportError (JsonRpcResponse (List Group))
  hostResp : String → Except TransportError (JsonRpcResponse (List HostRecord))
  updateResp : String → List Tag → Except TransportError Unit

/-- Processing of one host record (src/main.py lines 155-164): filter the
managed keys out of `record.get("tags", [])`, append the new tags, read
`record["hostid"]` (raising `KeyError` when absent, before any network
call), then call `host.update`.  Returns the events emitted and the
outcome of the body. -/
def process_record (env : Env) (nt : List Tag) (r : HostRecord) :
    List Event × Except PyError Unit :=
  let final := existing_tags (r.tags.getD []) ++ nt
  match r.hostid with
  | none => ([], .error (.keyError "hostid"))
  | some hid =>
    match update_record (env.updateResp hid final) with
    | .error e => ([.callHostUpdate hid final], .error e)
    | .ok _ => ([.callHostUpdate hid final, .logInfoUpdated hid], .ok ())

/-- The inner `for record in records.get("result", [])` loop: records are
processed in order and the first raised exception aborts the loop. -/
def process_records (env : Env) (nt : List Tag) :
    List HostRecord → List Event × Except PyError Unit
  | [] => ([], .ok ())
  | r :: rs =>
    match process_record env nt r with
    | (evs, .error e) => (evs, .error e)
    | (evs, .ok _) =>
      let rest := process_records env nt rs
      (evs ++ rest.1, rest.2)

/-- The body of the per-row `try` block (src/main.py lines 130-164):
resolve the group (skipping with a warning when `group_id` is falsy,
which in Python covers both `None` and the empty string), list the hosts
and process each returned record. -/
def row_try (env : Env) (row : Row) : List Event × Except PyError Unit :=
  let callg : List Event := [.callGroupGet row.groupname]
  match get_group (env.groupResp row.groupname) with
  | .error e => (callg, .error e)
  | .ok none => (callg ++ [.logWarningNoGroup row.groupname], .ok ())
  | .ok (some gid) =>
    if gid = "" then (callg ++ [.logWarningNoGroup row.groupname], .ok ())
    else
      match get_hosts (env.hostResp gid) with
      | .error e => (callg ++ [.callHostGet gid], .error e)
      | .ok records =>
        let recs := records.result.getD []
        let inner := process_records env (new_tags row) recs
        (callg ++ [.callHostGet gid] ++ inner.1, inner.2)

/-- One iteration of the row loop with its `except` clause (src/main.py
lines 166-168): any exception from the body is caught, logged, and the
loop continues. -/
def process_row (env : Env) (row : Row) : List Event :=
  match row_try env row with
  | (evs, .ok _) => evs
  | (evs, .error e) => evs ++ [.logErrorRow e]

/-- The full `for index, row in df.iterrows()` loop. -/
def run_rows (env : Env) (rows : List Row) : List Event :=
  rows.flatMap (process_row env)

/-- Outcome of a whole run of `main`: an early `return` on a
configuration or CSV load failure, or normal completion with the trace
of the row loop. -/
inductive RunOutcome where
  | abortedConfig
  | abortedCsv
  | completed (events : List Event)
deriving DecidableEq, Repr

/-- `main` (src/main.py lines 100-170). -/
def main_run (env : Env) : RunOutcome :=
  match env.config with
  | none => .abortedConfig
  | some _ =>
    match env.csv with
    | none => .abortedCsv
    | some rows => .completed (run_rows env rows)

/-! ## Concrete environments used as witnesses and counterexamples -/

/-- The CSV row of the spec's worked scenario. -/
def rowEU : Row := ⟨"EU-Sites", "France", "Paris1", "P001", "PK9", "5G"⟩

/-- The host of the spec's worked scenario. -/
def host55 : HostRecord := ⟨some "55", some [⟨"OWNER", "ops"⟩]⟩

/-- Environment of the spec's worked scenario: group `EU-Sites` resolves
to id `12` which contains exactly `host55`; every update succeeds. -/
def envEU : Env :=
  ⟨some ⟨"http://api", "tok", "data.csv"⟩, some [rowEU],
   fun n => if n = "EU-Sites" then .ok ⟨some [⟨"12"⟩]⟩ else .ok ⟨some []⟩,
   fun g => if g = "12" then .ok ⟨some [host55]⟩ else .ok ⟨some []⟩,
   fun _ _ => .ok ()⟩

/-- Host whose update fails in `envAB`. -/
def hostA : HostRecord := ⟨some "A", some []⟩

/-- Host whose update would succeed in `envAB`. -/
def hostB : HostRecord := ⟨some "B", some []⟩

/-- Environment where the group contains hosts `A` and `B` in that order
and `host.update` fails with a transport error exactly for `A`. -/
def envAB : Env :=
  ⟨some ⟨"http://api", "tok", "data.csv"⟩, some [rowEU],
   fun _ => .ok ⟨some [⟨"12"⟩]⟩,
   fun _ => .ok ⟨some [hostA, hostB]⟩,
   fun hid _ => if hid = "A" then .error .mk else .ok ()⟩

/-- Environment where every group lookup returns an empty result list. -/
def envNoGroup : Env :=
  ⟨some ⟨"http://api", "tok", "data.csv"⟩, some [rowEU],
   fun _ => .ok ⟨some []⟩, fun _ => .ok ⟨some []⟩, fun _ _ => .ok ()⟩

/-- Environment where every remote call fails with a transport error. -/
def envFail : Env :=
  ⟨some ⟨"http://api", "tok", "data.csv"⟩, some [rowEU],
   fun _ => .error .mk, fun _ => .error .mk, fun _ _ => .error .mk⟩

/-- Environment where the group lookup's 200 body has no result key. -/
def envNoResult : Env :=
  ⟨some ⟨"http://api", "tok", "data.csv"⟩, some [rowEU],
   fun _ => .ok ⟨none⟩, fun _ => .ok ⟨none⟩, fun _ _ => .ok ()⟩

/-- Environment where the group resolves to id `7` but the host
listing's 200 body has no result key. -/
def envHostsNoResult : Env :=
  ⟨some ⟨"http://api", "tok", "data.csv"⟩, some [rowEU],
   fun _ => .ok ⟨some [⟨"7"⟩]⟩, fun _ => .ok ⟨none⟩, fun _ _ => .ok ()⟩

/-! ## Helper lemmas on the loop -/

/-- The `except` clause of the row loop: an exception raised by the row
body is logged and the iteration still completes. -/
lemma process_row_of_error (env : Env) (row : Row) (e : PyError)
    (h : (row_try env row).2 = .error e) :
    process_row env row = (row_try env row).1 ++ [.logErrorRow e] := by
  rcases hrt : row_try env row with ⟨evs, res⟩
  rw [hrt] at h
  obtain rfl : res = .error e := h
  simp [process_row, hrt]

/-- The row loop processes the head row and then the remaining rows. -/
lemma run_rows_cons (env : Env) (row : Row) (rest : List Row) :
    run_rows env (row :: rest) = process_row env row ++ run_rows env rest := by
  simp [run_rows]

/-- The inner host loop stops at the first record whose processing
raises: records after it contribute no events. -/
lemma process_records_error_head (env : Env) (nt : List Tag) (r : HostRecord)
    (rs : List HostRecord) (e : PyError)
    (h : (process_record env nt r).2 = .error e) :
    process_records env nt (r :: rs) = ((process_record env nt r).1, .error e) := by
  rcases hp : process_record env nt r with ⟨evs, res⟩
  rw [hp] at h
  obtain rfl : res = .error e := h
  simp [process_records, hp]

/-! ## Claims -/

/-- Claim C1 (counterexample): in a run whose single row resolves to a
group with hosts `A` and `B` in that order and whose `host.update` fails
for `A` with a transport error, the trace contains the failed update
attempt for `A` but no update attempt at all for the later host `B`:
the exception aborts the per-host loop and is caught at the row
boundary, contradicting the claim that B is still attempted. -/
theorem claim_C1_counterexample :
    run_rows envAB [rowEU] =
      [.callGroupGet "EU-Sites", .callHostGet "12",
       .callHostUpdate "A" (new_tags rowEU),
       .logErrorRow .requestException] ∧
    (run_rows envAB [rowEU]).countP
      (fun ev => match ev with
        | .callHostUpdate hid _ => hid == "B"
        | _ => false) = 0 := by
  exact ⟨rfl, rfl⟩

/-- Claim C1 (amended): if processing an earlier host raises, the later
hosts of the same group in the same row are not attempted — the
exception is caught and logged at the row boundary — and the loop then
continues with the next row. -/
theorem claim_C1_amended (env : Env) (nt : List Tag) (r : HostRecord)
    (rs : List HostRecord) (e : PyError)
    (h : (process_record env nt r).2 = .error e) :
    process_records env nt (r :: rs) = ((process_record env nt r).1, .error e) ∧
    ∀ row rest, run_rows env (row :: rest) = process_row env row ++ run_rows env rest :=
  ⟨process_records_error_head env nt r rs e h,
   fun row rest => run_rows_cons env row rest⟩

/-- Witness for the amended claim C1 on the concrete two-host group. -/
theorem claim_C1_amended_witness :
    (process_record envAB (new_tags rowEU) hostA).2 = .error .requestException ∧
    process_records envAB (new_tags rowEU) [hostA, hostB] =
      ((process_record envAB (new_tags rowEU) hostA).1, .error .requestException) :=
  ⟨rfl, (claim_C1_amended envAB (new_tags rowEU) hostA [hostB] .requestException rfl).1⟩

/-- Claim C5: when group resolution yields an absence, the row issues no
`host.get` and no `host.update` call — only the group lookup and a
warning log — and the loop continues with the next row. -/
theorem claim_C5 (env : Env) (row : Row) (rest : List Row)
    (h : get_group (env.groupResp row.groupname) = .ok none) :
    process_row env row =
      [.callGroupGet row.groupname, .logWarningNoGroup row.groupname] ∧
    run_rows env (row :: rest) =
      [.callGroupGet row.groupname, .logWarningNoGroup row.groupname]
        ++ run_rows env rest := by
  have hp : process_row env row =
      [.callGroupGet row.groupname, .logWarningNoGroup row.groupname] := by
    simp [process_row, row_try, h]
  exact ⟨hp, by rw [run_rows_cons, hp]⟩

/-- Witness for claim C5: a concrete run whose group lookup returns an
empty result list skips the row with a warning. -/
theorem claim_C5_witness :
    process_row envNoGroup rowEU =
      [.callGroupGet "EU-Sites", .logWarningNoGroup "EU-Sites"] ∧
    run_rows envNoGroup [rowEU, rowEU] =
      [.callGroupGet "EU-Sites", .logWarningNoGroup "EU-Sites"]
        ++ run_rows envNoGroup [rowEU] :=
  claim_C5 envNoGroup rowEU [rowEU] rfl

/-- Claim C7: an exception raised by any remote call inside the row body
is caught at the loop boundary and logged, and the loop continues with
the remaining rows; when the configuration and the CSV load, the run
completes normally over all rows, while a configuration-load or
CSV-load failure makes `main` return before any API call. -/
theorem claim_C7 (env : Env) (row : Row) (rest : List Row) (e : PyError)
    (h : (row_try env row).2 = .error e) :
    run_rows env (row :: rest) =
      (row_try env row).1 ++ [.logErrorRow e] ++ run_rows env rest ∧
    (∀ cfg rows, env.config = some cfg → env.csv = some rows →
        main_run env = .completed (run_rows env rows)) ∧
    (env.config = none → main_run env = .abortedConfig) ∧
    (∀ cfg, env.config = some cfg → env.csv = none →
        main_run env = .abortedCsv) := by
  refine ⟨?_, ?_, ?_, ?_⟩
  · rw [run_rows_cons, process_row_of_error env row e h, List.append_assoc]
  · intro cfg rows h1 h2
    simp [main_run, h1, h2]
  · intro h1
    simp [main_run, h1]
  · intro cfg h1 h2
    simp [main_run, h1, h2]

/-- Witness for claim C7: with every remote call failing, the first row's
transport error is logged and the second row is still processed. -/
theorem claim_C7_witness :
    run_rows envFail [rowEU, rowEU] =
      (row_try envFail rowEU).1 ++ [.logErrorRow .requestException]
        ++ run_rows envFail [rowEU] :=
  (claim_C7 envFail rowEU [rowEU] .requestException rfl).1

/-- Claim C8: a 200 response whose JSON body has no result key degrades
to a no-op: `get_group` treats it as group-not-found so the row is
skipped with a warning, and `get_hosts` treats it as an empty host list
so no update call is issued. -/
theorem claim_C8 (env : Env) (row : Row) (gid : String) :
    (env.groupResp row.groupname = .ok ⟨none⟩ →
      process_row env row =
        [.callGroupGet row.groupname, .logWarningNoGroup row.groupname]) ∧
    (get_group (env.groupResp row.groupname) = .ok (some gid) → gid ≠ "" →
      env.hostResp gid = .ok ⟨none⟩ →
      process_row env row = [.callGroupGet row.groupname, .callHostGet gid]) := by
  constructor
  · intro hg
    simp [process_row, row_try, get_group, hg]
  · intro hg hne hh
    simp [process_row, row_try, get_hosts, process_records, hg, hne, hh]

/-- Witness for claim C8 on two concrete runs, one with no result key in
the group lookup and one with no result key in the host listing. -/
theorem claim_C8_witness :
    process_row envNoResult rowEU =
      [.callGroupGet "EU-Sites", .logWarningNoGroup "EU-Sites"] ∧
    process_row envHostsNoResult rowEU =
      [.callGroupGet "EU-Sites", .callHostGet "7"] :=
  ⟨(claim_C8 envNoResult rowEU "7").1 rfl,
   (claim_C8 envHostsNoResult rowEU "7").2 rfl (by decide) rfl⟩

/-- Claim C9: a host record with no hostid key makes processing that
record raise a `KeyError` before any update call, and an error raised by
the row body is logged at the row boundary — the record is not silently
skipped. -/
theorem claim_C9 (env : Env) (nt : List Tag) (r : HostRecord)
    (h : r.hostid = none) :
    process_record env nt r = ([], .error (.keyError "hostid")) ∧
    ∀ row e, (row_try env row).2 = .error e →
      process_row env row = (row_try env row).1 ++ [.logErrorRow e] := by
  constructor
  · simp [process_record, h]
  · intro row e he
    exact process_row_of_error env row e he

/-- Witness for claim C9 at a concrete record with no hostid field. -/
theorem claim_C9_witness :
    process_record envEU (new_tags rowEU) ⟨none, some [⟨"OWNER", "ops"⟩]⟩ =
      ([], .error (.keyError "hostid")) :=
  (claim_C9 envEU (new_tags rowEU) ⟨none, some [⟨"OWNER", "ops"⟩]⟩ rfl).1

/-- Claim C2: for every host and every input row, the tag list sent to
`host.update` contains exactly one entry for each of the five managed
keys with values taken from the row, every pre-existing non-managed tag
appears unchanged and in original relative order before the managed
entries, and duplicate non-managed tags pass through undeduplicated. -/
theorem claim_C2 (tags : List Tag) (row : Row) :
    ((final_tags tags row).filter (fun t => update_tag_names.contains t.tag)
        = new_tags row) ∧
    (∀ k, k ∈ update_tag_names →
        ((final_tags tags row).filter (fun t => t.tag == k)).length = 1) ∧
    ((final_tags tags row).filter (fun t => !(update_tag_names.contains t.tag))
        = tags.filter (fun t => !(update_tag_names.contains t.tag))) ∧
    (final_tags tags row
        = tags.filter (fun t => !(update_tag_names.contains t.tag)) ++ new_tags row) := by
  refine ⟨?_, ?_, ?_, rfl⟩
  · rw [final_tags, List.filter_append]
    have h1 : (existing_tags tags).filter
        (fun t => update_tag_names.contains t.tag) = [] := by
      rw [existing_tags, List.filter_filter]
      simp
    have h2 : (new_tags row).filter
        (fun t => update_tag_names.contains t.tag) = new_tags row := rfl
    rw [h1, h2, List.nil_append]
  · intro k hk
    rw [final_tags, List.filter_append]
    have h1 : (existing_tags tags).filter (fun t => t.tag == k) = [] := by
      rw [existing_tags, List.filter_filter]
      rw [List.filter_eq_nil_iff]
      intro t _
      simp only [Bool.and_eq_true, beq_iff_eq, Bool.not_eq_eq_eq_not, Bool.not_true]
      rintro ⟨he, hc⟩
      rw [he] at hc
      have hm : update_tag_names.contains k = true := List.elem_eq_true_of_mem hk
      rw [hm] at hc
      cases hc
    rw [h1, List.nil_append]
    fin_cases hk <;> rfl
  · show existing_tags (final_tags tags row) = existing_tags tags
    rw [final_tags, existing_tags_append, existing_tags_idem,
      existing_tags_new_tags, List.append_nil]

/-- Witness for claim C2 at a concrete tag list carrying a stale managed
tag and a non-managed tag. -/
theorem claim_C2_witness :
    ((final_tags [⟨"COUNTRY", "old"⟩, ⟨"OWNER", "ops"⟩] rowEU).filter
        (fun t => t.tag == "COUNTRY")).length = 1 :=
  (claim_C2 [⟨"COUNTRY", "old"⟩, ⟨"OWNER", "ops"⟩] rowEU).2.1 "COUNTRY" (by decide)

/-- Claim C3: the tag merge is idempotent — merging the same row a second
time into an already-merged tag list reproduces the same `final_tags`. -/
theorem claim_C3 (tags : List Tag) (row : Row) :
    final_tags (final_tags tags row) row = final_tags tags row := by
  rw [final_tags, final_tags, existing_tags_append,
    existing_tags_idem, existing_tags_new_tags, List.append_nil]

/-- Claim C4: on the spec's worked scenario (row `EU-Sites/France/Paris1/
P001/PK9/5G`, one host `55` already tagged `OWNER=ops`), the payload of
the single `host.update` call is exactly `OWNER` followed by the five
managed tags, in that order. -/
theorem claim_C4 :
    main_run envEU = .completed
      [.callGroupGet "EU-Sites", .callHostGet "12",
       .callHostUpdate "55"
         [⟨"OWNER", "ops"⟩, ⟨"COUNTRY", "France"⟩, ⟨"SITE_NAME", "Paris1"⟩,
          ⟨"SITE_ID", "P001"⟩, ⟨"PARKID", "PK9"⟩, ⟨"TECHNOLOGY", "5G"⟩],
       .logInfoUpdated "55"] := by
  rfl

/-- Claim C6: `get_group` on a successful HTTP response returns the first
listed group's id when the (defaulted) result list is non-empty — even
when several groups share the name — and the absence `none` (not an
error) when it is empty. -/
theorem claim_C6 (resp : JsonRpcResponse (List Group)) :
    get_group (.ok resp) = .ok ((resp.result.getD []).head?.map Group.groupid) := by
  cases resp with
  | mk result =>
    cases result with
    | none => rfl
    | some l => cases l <;> rfl

/-- Claim C10: a host record that has no `tags` field at all is merged as
though its tag list were empty, so the update call carries exactly the
five managed tags in the fixed order. -/
theorem claim_C10 (env : Env) (row : Row) (r : HostRecord) (hid : String)
    (h1 : r.hostid = some hid) (h2 : r.tags = none) :
    (process_record env (new_tags row) r).1.head? =
      some (.callHostUpdate hid
        [⟨"COUNTRY", row.site_country⟩, ⟨"SITE_NAME", row.site_name⟩,
         ⟨"SITE_ID", row.site_id⟩, ⟨"PARKID", row.park_id⟩,
         ⟨"TECHNOLOGY", row.technology⟩]) := by
  obtain ⟨hi, tl⟩ := r
  simp only at h1 h2
  subst h1
  subst h2
  cases hu : env.updateResp hid
      [⟨"COUNTRY", row.site_country⟩, ⟨"SITE_NAME", row.site_name⟩,
       ⟨"SITE_ID", row.site_id⟩, ⟨"PARKID", row.park_id⟩,
       ⟨"TECHNOLOGY", row.technology⟩] <;>
    simp [process_record, update_record, existing_tags, new_tags, hu]

/-- Witness for claim C10 at a concrete record with no tags field. -/
theorem claim_C10_witness :
    (process_record envEU (new_tags rowEU) ⟨some "55", none⟩).1.head? =
      some (.callHostUpdate "55"
        [⟨"COUNTRY", "France"⟩, ⟨"SITE_NAME", "Paris1"⟩, ⟨"SITE_ID", "P001"⟩,
         ⟨"PARKID", "PK9"⟩, ⟨"TECHNOLOGY", "5G"⟩]) :=
  claim_C10 envEU rowEU ⟨some "55", none⟩ "55" rfl rfl

end ZabbixTagger
